import Mathlib

/-!
Shallow embedding of the `lancedb-mcp-server` npm front end:
the binary-asset installer (`scripts/install.js`) and the process launcher
(`bin/lancedb-mcp-server.js`).  The installer resolves the host platform,
builds a release-asset URL, downloads the asset to a temporary file while
reporting progress, and atomically promotes it to the final path; the
launcher spawns the installed binary and propagates its exit status.

The observable behaviour of the scripts is modelled as a list of `Action`s
emitted while running, parametrised by an `Env` describing what the
network, the stream and the filesystem do.  Numeric progress arithmetic
(JavaScript `Math.round`, `toFixed(1)`) is modelled over `ℚ`.
-/

namespace Installer

/-- One observable action performed by the install or launch scripts. -/
inductive Action where
  | httpGet (url : Option String)
  | consoleLog (msg : String)
  | consoleError (msg : String)
  | stdoutWrite (s : String)
  | mkdir (p : String)
  | createWriteStream (p : String)
  | writeChunk (p : String) (bytes : List Nat)
  | closeFile (p : String)
  | destroyFile (p : String)
  | unlink (p : String)
  | rename (src : String) (dst : String)
  | chmod (p : String) (mode : String)
  | exit (code : Nat)
  deriving Repr, DecidableEq

/-- The `SUPPORTED_PLATFORMS` object of `install.js`: maps a `process.platform`
value to the OS tag used in asset names (`undefined` ↦ `none`). -/
def SUPPORTED_PLATFORMS (p : String) : Option String :=
  if p = "linux" then some "linux"
  else if p = "darwin" then some "darwin"
  else if p = "win32" then some "win"
  else none

/-- The `SUPPORTED_ARCHS` object of `install.js`. -/
def SUPPORTED_ARCHS (a : String) : Option String :=
  if a = "x64" then some "x64"
  else if a = "arm64" then some "arm64"
  else none

/-- The platform gate of `install.js` lines 21-26: execution continues iff
the explicit `linux`/`arm64` branch is taken, or both lookups are truthy. -/
def platformAllowed (p a : String) : Bool :=
  (p == "linux" && a == "arm64")
    || ((SUPPORTED_PLATFORMS p).isSome && (SUPPORTED_ARCHS a).isSome)

/-- The same gate with the special-case branch removed: only the generic
allow-list lookups. -/
def platformAllowedGeneric (p a : String) : Bool :=
  (SUPPORTED_PLATFORMS p).isSome && (SUPPORTED_ARCHS a).isSome

def binaryName : String := "lancedb-mcp-server"

def repoUrl : String := "https://github.com/gongxh13/lancedb-mcp-server"

/-- The `extension` value: `.exe` on `win32`, empty otherwise. -/
def extension (p : String) : String := if p = "win32" then ".exe" else ""

/-- OS tag interpolated into the asset name (JavaScript renders an absent
object property as the string `undefined`). -/
def osTag (p : String) : String := (SUPPORTED_PLATFORMS p).getD "undefined"

/-- Arch tag interpolated into the asset name. -/
def archTag (a : String) : String := (SUPPORTED_ARCHS a).getD "undefined"

/-- The `assetName` of `install.js` line 30. -/
def assetName (p a : String) : String :=
  binaryName ++ "-" ++ osTag p ++ "-" ++ archTag a ++ extension p

/-- The `downloadUrl` of `install.js` line 35, with `version` the raw
`package.json` version string (the script prepends `v`). -/
def downloadUrl (ver p a : String) : String :=
  repoUrl ++ "/releases/download/" ++ ("v" ++ ver) ++ "/" ++ assetName p a

/-- The temp path of line 39: `tempOutputPath` is the final path with a `.tmp` suffix. -/
def tempPath (outputPath : String) : String := outputPath ++ ".tmp"

end Installer

namespace Installer

/-- An HTTP response as seen by the script: status code, the
`location` header, the parsed `content-length` (`none` when `parseInt`
yields `NaN`), and the body as a list of data chunks. -/
structure Response where
  statusCode : Nat
  location : Option String
  contentLength : Option Nat
  body : List (List Nat)

/-- What one GET call produces: a response, or a transport error. -/
inductive NetEvent where
  | response (r : Response)
  | netError (msg : String)

/-- How the response-body stream behaves: runs to completion, or raises a
transport error after `k` chunks have been delivered. -/
inductive StreamOutcome where
  | complete
  | errorAt (k : Nat) (msg : String)

/-- Environment choices consulted by `handleDownload`. -/
structure DownloadEnv where
  stream : StreamOutcome
  renameThrows : Bool
  chmodThrows : Bool

/-- Environment for a whole install run. -/
structure Env where
  binDirExists : Bool
  staleTempExists : Bool
  firstEvent : NetEvent
  secondEvent : NetEvent
  download : DownloadEnv

end Installer

namespace Installer

def progressBarWidth : Nat := 28

/-- JavaScript `Math.round`: round half towards positive infinity. -/
def jsRound (q : ℚ) : ℤ := ⌊q + 1 / 2⌋

/-- The `filled` count of `install.js` lines 69-72:
`Math.max(0, Math.min(width, Math.round(downloaded / total * width)))`. -/
def filled (downloadedBytes totalBytes : ℕ) : ℤ :=
  max 0 (min (progressBarWidth : ℤ)
    (jsRound ((downloadedBytes : ℚ) / (totalBytes : ℚ) * (progressBarWidth : ℚ))))

/-- The percentage in tenths displayed by `toFixed(1)` on line 68:
`(downloaded / total * 100)` rounded to one decimal place (ties up). -/
def percentTenths (downloadedBytes totalBytes : ℕ) : ℤ :=
  jsRound ((downloadedBytes : ℚ) / (totalBytes : ℚ) * 100 * 10)

/-- Render an integer number of tenths as `toFixed(1)` does for
non-negative values. -/
def fixed1 (x : ℤ) : String := toString (x / 10) ++ "." ++ toString (x % 10)

/-- The progress line written on each chunk (line 73-74):
carriage return, bar of `#`/`-`, percentage. -/
def progressLine (downloadedBytes totalBytes : ℕ) : String :=
  let f : ℕ := (filled downloadedBytes totalBytes).toNat
  "\r[" ++ String.mk (List.replicate f '#')
    ++ String.mk (List.replicate (progressBarWidth - f) '-')
    ++ "] " ++ fixed1 (percentTenths downloadedBytes totalBytes) ++ "%"

/-- Actions emitted while streaming the body chunks to the temp file:
the data handler prints progress (when a total size is known), then the
pipe writes the chunk.  `d0` is the byte count received so far. -/
def streamChunks (tmp : String) (total : Option Nat)
    (chunks : List (List Nat)) (d0 : Nat) : List Action :=
  match chunks with
  | [] => []
  | c :: rest =>
      (match total with
       | some t => [Action.stdoutWrite (progressLine (d0 + c.length) t)]
       | none => [])
      ++ Action.writeChunk tmp c :: streamChunks tmp total rest (d0 + c.length)

/-- The `onError` handler of `install.js` lines 99-113, as the trace it
emits.  Here `fileOpen` reflects whether the module-level `file` variable
is non-null, and `tempExists` the existence check on the temp path. -/
def onErrorTrace (outputPath : String) (fileOpen tempExists : Bool)
    (msg : String) : List Action :=
  (if fileOpen then
     [Action.closeFile (tempPath outputPath), Action.destroyFile (tempPath outputPath)]
   else [])
  ++ (if tempExists then [Action.unlink (tempPath outputPath)] else [])
  ++ [Action.consoleError ("Error downloading binary: " ++ msg), Action.exit 1]

/-- The try/catch finalize block run by the finish callback
(lines 86-94): rename, then chmod on non-Windows. -/
def finalizeActions (outputPath : String) (isWin renameThrows chmodThrows : Bool) :
    List Action :=
  if renameThrows then
    [Action.consoleError "Failed to move binary to final location:", Action.exit 1]
  else
    Action.rename (tempPath outputPath) outputPath ::
      (if isWin then []
       else if chmodThrows then
         [Action.consoleError "Failed to move binary to final location:", Action.exit 1]
       else [Action.chmod outputPath "755"])

/-- The `handleDownload` function of `install.js` lines 49-97, as the trace of actions
it emits for a given final response and environment. -/
def handleDownload (outputPath : String) (isWin : Bool) (denv : DownloadEnv)
    (response : Response) : List Action :=
  if response.statusCode ≠ 200 then
    [Action.consoleError
      ("Failed to download binary. Status code: " ++ toString response.statusCode),
     Action.exit 1]
  else
    Action.createWriteStream (tempPath outputPath) ::
    (if response.contentLength.isNone then
       [Action.consoleLog "Downloading (size unknown)..."]
     else [])
    ++ match denv.stream with
       | StreamOutcome.errorAt k msg =>
           streamChunks (tempPath outputPath) response.contentLength
             (response.body.take k) 0
           ++ onErrorTrace outputPath true true msg
       | StreamOutcome.complete =>
           streamChunks (tempPath outputPath) response.contentLength response.body 0
           ++ (if response.contentLength.isNone then []
               else [Action.stdoutWrite "\n"])
           ++ [Action.closeFile (tempPath outputPath),
               Action.consoleLog "Download completed."]
           ++ finalizeActions outputPath isWin denv.renameThrows denv.chmodThrows

/-- The top-level request logic of `install.js` lines 115-121: one GET,
follow a `301`/`302` once (to `headers.location`, even when absent), and
hand the final event to `handleDownload` / `onError`. -/
def topRequest (url : String) (outputPath : String) (isWin : Bool) (env : Env) :
    List Action :=
  Action.httpGet (some url) ::
  match env.firstEvent with
  | NetEvent.netError msg => onErrorTrace outputPath false env.staleTempExists msg
  | NetEvent.response r =>
      if r.statusCode = 302 ∨ r.statusCode = 301 then
        Action.httpGet r.location ::
        match env.secondEvent with
        | NetEvent.netError msg => onErrorTrace outputPath false env.staleTempExists msg
        | NetEvent.response r2 => handleDownload outputPath isWin env.download r2
      else handleDownload outputPath isWin env.download r

/-- The whole `install.js` script: platform gate, banner, `bin` directory
creation, then the download.  `binDir` stands for the resolved
the resolved `bin` directory next to the script. -/
def installScript (p a ver binDir : String) (env : Env) : List Action :=
  if platformAllowed p a then
    Action.consoleLog
      ("Downloading " ++ assetName p a ++ " from " ++ downloadUrl ver p a ++ "...") ::
    (if env.binDirExists then [] else [Action.mkdir binDir])
    ++ topRequest (downloadUrl ver p a)
        (binDir ++ "/" ++ binaryName ++ extension p) (p == "win32") env
  else
    [Action.consoleError ("Unsupported platform or architecture: " ++ p ++ "-" ++ a),
     Action.exit 1]

/-- Count the `httpGet` actions in a trace. -/
def countGets (tr : List Action) : Nat :=
  tr.countP fun act => match act with | Action.httpGet _ => true | _ => false

/-- Count the `consoleLog msg` actions in a trace. -/
def countLog (msg : String) (tr : List Action) : Nat :=
  tr.countP fun act => match act with
    | Action.consoleLog m => m == msg
    | _ => false

/-- Count the `stdoutWrite` actions in a trace. -/
def countStdout (tr : List Action) : Nat :=
  tr.countP fun act => match act with | Action.stdoutWrite _ => true | _ => false

/-- Does an action create, write, delete, rename onto, or chmod the given
path? -/
def touchesPath (p : String) : Action → Bool
  | Action.mkdir q => q == p
  | Action.createWriteStream q => q == p
  | Action.writeChunk q _ => q == p
  | Action.unlink q => q == p
  | Action.rename _ dst => dst == p
  | Action.chmod q _ => q == p
  | _ => false

end Installer

namespace Launcher

open Installer

/-- Node process.exit semantics: a null/omitted code is coerced to 0;
the operating system observes the low byte of the code. -/
def processExit (code : Option Nat) : Nat := (code.getD 0) % 256

/-- How the spawned child terminates. -/
inductive ChildTermination where
  | exited (code : Nat)
  | signaled (sig : String)

/-- The code argument Node passes to an exit-event listener: the
exit code of the child, or null when the child was killed by a signal. -/
def exitEventCode : ChildTermination → Option Nat
  | ChildTermination.exited c => some c
  | ChildTermination.signaled _ => none

/-- The exit-event listener of the launcher: it forwards the received
code straight into a call of Node process.exit. -/
def launcherExitStatus (t : ChildTermination) : Nat :=
  processExit (exitEventCode t)

/-- The `binaryName` of the launcher script. -/
def launcherBinaryName (isWin : Bool) : String :=
  if isWin then "lancedb-mcp-server.exe" else "lancedb-mcp-server"

/-- The `binaryPath`: the script directory joined with the binary name. -/
def launcherBinaryPath (dirname : String) (isWin : Bool) : String :=
  dirname ++ "/" ++ launcherBinaryName isWin

/-- How a launcher invocation ends: an uncaught exception (Node exits
with status 1), or a `process.exit` with the given status. -/
inductive LaunchOutcome where
  | crashed (errMsg : String)
  | exited (status : Nat)
  deriving Repr, DecidableEq

/-- The process status the operating system observes for an outcome:
an uncaught exception makes Node exit with status 1. -/
def LaunchOutcome.exitStatus : LaunchOutcome → Nat
  | LaunchOutcome.crashed _ => 1
  | LaunchOutcome.exited s => s

/-- The launcher script: spawns the binary with inherited stdio.
When the binary file is absent, `spawn` emits an `error` event; the
script registers no `error` listener, so Node re-throws it as an uncaught
exception whose message is `spawn <path> ENOENT`.  Otherwise the `exit`
listener forwards the termination of the child through process.exit. -/
def launcherRun (dirname : String) (isWin : Bool) (present : Bool)
    (child : ChildTermination) : LaunchOutcome :=
  if present then LaunchOutcome.exited (launcherExitStatus child)
  else LaunchOutcome.crashed ("spawn " ++ launcherBinaryPath dirname isWin ++ " ENOENT")

/-- Is `needle` a leading segment of `hay`? -/
def hasPre : List Char → List Char → Bool
  | [], _ => true
  | _ :: _, [] => false
  | a :: as, b :: bs => a == b && hasPre as bs

/-- Does `needle` occur contiguously anywhere in `hay`? -/
def hasSub (needle : List Char) : List Char → Bool
  | [] => needle.isEmpty
  | c :: t => hasPre needle (c :: t) || hasSub needle t

end Launcher

namespace Installer

/-- The standard 3xx redirect status codes. -/
def redirectStatuses : List Nat := [301, 302, 303, 307, 308]

def isStdRedirect (s : Nat) : Bool := redirectStatuses.contains s

/-- Claim C2 as stated: every first response with a standard 3xx redirect
status and a `Location` header gets exactly one follow-up GET. -/
def redirectClaimC2 : Prop :=
  ∀ (url outputPath : String) (isWin : Bool) (env : Env) (r1 : Response),
    env.firstEvent = NetEvent.response r1 →
    isStdRedirect r1.statusCode = true →
    r1.location.isSome = true →
    countGets (topRequest url outputPath isWin env) = 2

end Installer

namespace Launcher

/-- Claim C8 as stated: with the artifact absent the launcher fails with a
non-zero status, and any failure message it produces instructs the user
about installation (contains the word `install`). -/
def launcherMissingClaimC8 : Prop :=
  ∀ (dirname : String) (isWin : Bool) (child : ChildTermination),
    (launcherRun dirname isWin false child).exitStatus ≠ 0 ∧
    ∀ msg, launcherRun dirname isWin false child = LaunchOutcome.crashed msg →
      hasSub "install".toList msg.toList = true

end Launcher

namespace Installer

/-- C10: the platform gate with the explicit `linux`/`arm64` special-case
branch accepts exactly the same `(OS, architecture)` pairs as the generic
allow-list lookup alone. -/
theorem platform_check_special_case_redundant :
    ∀ p a : String, platformAllowed p a = platformAllowedGeneric p a := by
  intro p a
  unfold platformAllowed platformAllowedGeneric
  by_cases hp : p = "linux"
  · by_cases ha : a = "arm64"
    · subst hp; subst ha; rfl
    · subst hp
      simp [SUPPORTED_PLATFORMS, beq_iff_eq, ha]
  · simp [beq_iff_eq, hp]

end Installer

namespace Installer

/-- Membership in the OS allow-list pins `p` to one of three values. -/
theorem allowed_platform_cases (p a : String) (h : platformAllowed p a = true) :
    p = "linux" ∨ p = "darwin" ∨ p = "win32" := by
  by_contra hc
  push_neg at hc
  obtain ⟨h1, h2, h3⟩ := hc
  unfold platformAllowed SUPPORTED_PLATFORMS at h
  simp [beq_iff_eq, h1, h2, h3] at h

/-- C6: for every supported pair and version, the download URL is exactly
`<release-host>/releases/download/v<version>/<baseName>-<osTag>-<archTag><ext>`,
and the extension is `.exe` precisely when the OS tag is the Windows tag. -/
theorem download_url_format (ver p a : String) (h : platformAllowed p a = true) :
    downloadUrl ver p a
      = repoUrl ++ "/releases/download/v" ++ ver ++ "/"
          ++ binaryName ++ "-" ++ osTag p ++ "-" ++ archTag a ++ extension p
    ∧ (extension p = ".exe" ↔ osTag p = "win") := by
  constructor
  · unfold downloadUrl assetName
    simp only [String.append_assoc]
    rw [← String.append_assoc "/releases/download/" "v"]
    rfl
  · rcases allowed_platform_cases p a h with rfl | rfl | rfl <;> decide

/-- Witness for C6 at `darwin`/`x64`, version `1.2.0`. -/
theorem download_url_format_witness :
    downloadUrl "1.2.0" "darwin" "x64"
      = repoUrl ++ "/releases/download/v" ++ "1.2.0" ++ "/"
          ++ binaryName ++ "-" ++ osTag "darwin" ++ "-" ++ archTag "x64" ++ extension "darwin"
    ∧ (extension "darwin" = ".exe" ↔ osTag "darwin" = "win") :=
  download_url_format "1.2.0" "darwin" "x64" (by decide)

end Installer

namespace Installer

/-- C5: for every pair rejected by the platform gate, the entire trace
of the installer is a single error message naming the pair followed by
`exit 1` — in particular it performs zero network calls. -/
theorem unsupported_platform_halts (p a ver binDir : String) (env : Env)
    (h : platformAllowed p a = false) :
    installScript p a ver binDir env
      = [Action.consoleError ("Unsupported platform or architecture: " ++ p ++ "-" ++ a),
         Action.exit 1]
    ∧ countGets (installScript p a ver binDir env) = 0 := by
  have heq : installScript p a ver binDir env
      = [Action.consoleError ("Unsupported platform or architecture: " ++ p ++ "-" ++ a),
         Action.exit 1] := by
    unfold installScript
    rw [h]
    rfl
  exact ⟨heq, by rw [heq]; rfl⟩

/-- Witness for C5: `sunos`/`mips` is rejected with no network call. -/
theorem unsupported_platform_halts_witness :
    installScript "sunos" "mips" "1.0.0" "bin"
        ⟨true, false, NetEvent.netError "e", NetEvent.netError "e",
         ⟨StreamOutcome.complete, false, false⟩⟩
      = [Action.consoleError ("Unsupported platform or architecture: " ++ "sunos" ++ "-" ++ "mips"),
         Action.exit 1]
    ∧ countGets (installScript "sunos" "mips" "1.0.0" "bin"
        ⟨true, false, NetEvent.netError "e", NetEvent.netError "e",
         ⟨StreamOutcome.complete, false, false⟩⟩) = 0 :=
  unsupported_platform_halts "sunos" "mips" "1.0.0" "bin" _ (by decide)

/-- C7: a final response whose status is not a 2xx success makes
`handleDownload` fail with the status code in the message and `exit 1`,
without any filesystem action — the temporary file is never created. -/
theorem bad_status_no_write (outputPath : String) (isWin : Bool)
    (denv : DownloadEnv) (r : Response)
    (h : ¬ (200 ≤ r.statusCode ∧ r.statusCode < 300)) :
    handleDownload outputPath isWin denv r
      = [Action.consoleError
           ("Failed to download binary. Status code: " ++ toString r.statusCode),
         Action.exit 1]
    ∧ ∀ act ∈ handleDownload outputPath isWin denv r,
        touchesPath (tempPath outputPath) act = false := by
  have hne : r.statusCode ≠ 200 := by
    intro he
    exact h ⟨by omega, by omega⟩
  have heq : handleDownload outputPath isWin denv r
      = [Action.consoleError
           ("Failed to download binary. Status code: " ++ toString r.statusCode),
         Action.exit 1] := by
    unfold handleDownload
    simp [hne]
  refine ⟨heq, ?_⟩
  rw [heq]
  intro act hact
  simp only [List.mem_cons, List.not_mem_nil, or_false] at hact
  rcases hact with rfl | rfl <;> rfl

/-- Witness for C7 at a 404 response. -/
theorem bad_status_no_write_witness :
    handleDownload "bin/lancedb-mcp-server" false
        ⟨StreamOutcome.complete, false, false⟩ ⟨404, none, none, []⟩
      = [Action.consoleError ("Failed to download binary. Status code: " ++ toString 404),
         Action.exit 1]
    ∧ ∀ act ∈ handleDownload "bin/lancedb-mcp-server" false
        ⟨StreamOutcome.complete, false, false⟩ ⟨404, none, none, []⟩,
        touchesPath (tempPath "bin/lancedb-mcp-server") act = false :=
  bad_status_no_write "bin/lancedb-mcp-server" false _ _ (by decide)

end Installer

namespace Launcher

/-- C3: the launcher mirrors a normal child exit code in the full range
0-255, but a signal-terminated child (the `exit` event delivers a `null`
code) makes `process.exit(null)` report status 0 — not the non-zero
result the design requires. -/
theorem launcher_exit_propagation :
    (∀ c : Nat, c ≤ 255 → launcherExitStatus (ChildTermination.exited c) = c)
    ∧ launcherExitStatus (ChildTermination.signaled "SIGKILL") = 0 := by
  constructor
  · intro c hc
    have h : launcherExitStatus (ChildTermination.exited c) = c % 256 := rfl
    rw [h]
    omega
  · rfl

/-- Witness for C3: exit code 7 is propagated unchanged. -/
theorem launcher_exit_propagation_witness :
    launcherExitStatus (ChildTermination.exited 7) = 7 :=
  launcher_exit_propagation.1 7 (by decide)

/-- C8 counterexample: with the artifact absent, the only failure output
of the launcher is the uncaught `spawn ... ENOENT` exception; that message
does not even contain the word `install`, so no re-install instruction is
given. -/
theorem launcher_missing_artifact_counterexample : ¬ launcherMissingClaimC8 := by
  intro h
  have h2 := (h "/app/bin" false (ChildTermination.exited 0)).2
    ("spawn " ++ launcherBinaryPath "/app/bin" false ++ " ENOENT") rfl
  exact absurd h2 (by decide)

/-- C8 (amended): with the artifact absent, the launcher fails with an
unhandled `spawn <binaryPath> ENOENT` error — Node exits with status 1 —
and its only output is that error, not a re-install instruction. -/
theorem launcher_missing_artifact :
    ∀ (dirname : String) (isWin : Bool) (child : ChildTermination),
      launcherRun dirname isWin false child
        = LaunchOutcome.crashed ("spawn " ++ launcherBinaryPath dirname isWin ++ " ENOENT")
      ∧ (launcherRun dirname isWin false child).exitStatus = 1 := by
  intro dirname isWin child
  exact ⟨rfl, rfl⟩

end Launcher

namespace Installer

/-- Every action of the streaming phase is a progress write or a chunk
write to the temp file. -/
theorem mem_streamChunks (tmp : String) (total : Option Nat)
    (chunks : List (List Nat)) (d0 : Nat) (act : Action)
    (h : act ∈ streamChunks tmp total chunks d0) :
    (∃ s, act = Action.stdoutWrite s) ∨ ∃ c, act = Action.writeChunk tmp c := by
  induction chunks generalizing d0 with
  | nil => cases h
  | cons c rest ih =>
      cases total with
      | some t =>
          simp only [streamChunks, List.mem_append, List.mem_cons,
            List.not_mem_nil, or_false] at h
          rcases h with rfl | rfl | h
          · exact Or.inl ⟨_, rfl⟩
          · exact Or.inr ⟨c, rfl⟩
          · exact ih _ h
      | none =>
          simp only [streamChunks, List.nil_append, List.mem_cons] at h
          rcases h with rfl | h
          · exact Or.inr ⟨c, rfl⟩
          · exact ih _ h

/-- With no declared total size, streaming is exactly the chunk writes. -/
theorem streamChunks_none (tmp : String) (chunks : List (List Nat)) (d0 : Nat) :
    streamChunks tmp none chunks d0
      = chunks.map (fun c => Action.writeChunk tmp c) := by
  induction chunks generalizing d0 with
  | nil => rfl
  | cons c rest ih => simp [streamChunks, ih]

theorem countGets_streamChunks (tmp : String) (total : Option Nat)
    (chunks : List (List Nat)) (d0 : Nat) :
    countGets (streamChunks tmp total chunks d0) = 0 := by
  unfold countGets
  rw [List.countP_eq_zero]
  intro a ha
  rcases mem_streamChunks _ _ _ _ _ ha with ⟨s, rfl⟩ | ⟨c, rfl⟩ <;> simp

theorem countGets_onErrorTrace (outputPath : String) (fileOpen tempExists : Bool)
    (msg : String) :
    countGets (onErrorTrace outputPath fileOpen tempExists msg) = 0 := by
  cases fileOpen <;> cases tempExists <;> rfl

theorem countGets_finalizeActions (outputPath : String)
    (isWin renameThrows chmodThrows : Bool) :
    countGets (finalizeActions outputPath isWin renameThrows chmodThrows) = 0 := by
  cases renameThrows <;> cases isWin <;> cases chmodThrows <;> rfl

/-- Every action of the `onError` cleanup satisfies any predicate that
holds for close/destroy/unlink of the temp file, error messages and the
exit. -/
theorem forall_mem_onErrorTrace (P : Action → Prop) (outputPath : String)
    (fileOpen tempExists : Bool) (msg : String)
    (hclose : P (Action.closeFile (tempPath outputPath)))
    (hdestroy : P (Action.destroyFile (tempPath outputPath)))
    (hunlink : P (Action.unlink (tempPath outputPath)))
    (herr : ∀ m, P (Action.consoleError m))
    (hexit : P (Action.exit 1)) :
    ∀ act ∈ onErrorTrace outputPath fileOpen tempExists msg, P act := by
  intro act h
  unfold onErrorTrace at h
  rcases List.mem_append.mp h with h | h
  · rcases List.mem_append.mp h with h | h
    · split at h
      · rcases List.mem_cons.mp h with rfl | h
        · exact hclose
        · rcases List.mem_cons.mp h with rfl | h
          · exact hdestroy
          · cases h
      · cases h
    · split at h
      · rcases List.mem_cons.mp h with rfl | h
        · exact hunlink
        · cases h
      · cases h
  · rcases List.mem_cons.mp h with rfl | h
    · exact herr _
    · rcases List.mem_cons.mp h with rfl | h
      · exact hexit
      · cases h

/-- Every action of the finalize step satisfies any predicate that holds
for the rename, the chmod, error messages and the exit. -/
theorem forall_mem_finalizeActions (P : Action → Prop) (outputPath : String)
    (isWin renameThrows chmodThrows : Bool)
    (hrename : P (Action.rename (tempPath outputPath) outputPath))
    (hchmod : P (Action.chmod outputPath "755"))
    (herr : ∀ m, P (Action.consoleError m))
    (hexit : P (Action.exit 1)) :
    ∀ act ∈ finalizeActions outputPath isWin renameThrows chmodThrows, P act := by
  intro act h
  unfold finalizeActions at h
  split at h
  · rcases List.mem_cons.mp h with rfl | h
    · exact herr _
    · rcases List.mem_cons.mp h with rfl | h
      · exact hexit
      · cases h
  · rcases List.mem_cons.mp h with rfl | h
    · exact hrename
    · split at h
      · cases h
      · split at h
        · rcases List.mem_cons.mp h with rfl | h
          · exact herr _
          · rcases List.mem_cons.mp h with rfl | h
            · exact hexit
            · cases h
        · rcases List.mem_cons.mp h with rfl | h
          · exact hchmod
          · cases h

/-- Every action of `handleDownload` satisfies any predicate that holds
for console output, stdout writes, temp-file actions, the rename onto the
final path, the chmod of the final path and the exit. -/
theorem forall_mem_handleDownload (P : Action → Prop) (outputPath : String)
    (isWin : Bool) (denv : DownloadEnv) (r : Response)
    (herr : ∀ m, P (Action.consoleError m))
    (hlog : ∀ m, P (Action.consoleLog m))
    (hout : ∀ s, P (Action.stdoutWrite s))
    (hcreate : P (Action.createWriteStream (tempPath outputPath)))
    (hwrite : ∀ c, P (Action.writeChunk (tempPath outputPath) c))
    (hclose : P (Action.closeFile (tempPath outputPath)))
    (hdestroy : P (Action.destroyFile (tempPath outputPath)))
    (hunlink : P (Action.unlink (tempPath outputPath)))
    (hrename : P (Action.rename (tempPath outputPath) outputPath))
    (hchmod : P (Action.chmod outputPath "755"))
    (hexit : P (Action.exit 1)) :
    ∀ act ∈ handleDownload outputPath isWin denv r, P act := by
  intro act h
  unfold handleDownload at h
  split at h
  · rcases List.mem_cons.mp h with rfl | h
    · exact herr _
    · rcases List.mem_cons.mp h with rfl | h
      · exact hexit
      · cases h
  · rcases List.mem_append.mp h with h | h
    · rcases List.mem_cons.mp h with rfl | h
      · exact hcreate
      · split at h
        · rcases List.mem_cons.mp h with rfl | h
          · exact hlog _
          · cases h
        · cases h
    · split at h
      · rcases List.mem_append.mp h with h | h
        · exact mem_streamChunks _ _ _ _ _ h |>.elim
            (fun ⟨s, hs⟩ => hs ▸ hout s) (fun ⟨c, hc⟩ => hc ▸ hwrite c)
        · exact forall_mem_onErrorTrace P outputPath true true _
            hclose hdestroy hunlink herr hexit act h
      · rcases List.mem_append.mp h with h | h
        · rcases List.mem_append.mp h with h | h
          · rcases List.mem_append.mp h with h | h
            · exact mem_streamChunks _ _ _ _ _ h |>.elim
                (fun ⟨s, hs⟩ => hs ▸ hout s) (fun ⟨c, hc⟩ => hc ▸ hwrite c)
            · split at h
              · cases h
              · rcases List.mem_cons.mp h with rfl | h
                · exact hout _
                · cases h
          · rcases List.mem_cons.mp h with rfl | h
            · exact hclose
            · rcases List.mem_cons.mp h with rfl | h
              · exact hlog _
              · cases h
        · exact forall_mem_finalizeActions P outputPath isWin _ _
            hrename hchmod herr hexit act h

/-- `handleDownload` never issues an HTTP request of its own. -/
theorem countGets_handleDownload (outputPath : String) (isWin : Bool)
    (denv : DownloadEnv) (r : Response) :
    countGets (handleDownload outputPath isWin denv r) = 0 := by
  unfold countGets
  rw [List.countP_eq_zero]
  exact forall_mem_handleDownload _ outputPath isWin denv r
    (fun m => by simp) (fun m => by simp) (fun s => by simp) (by simp)
    (fun c => by simp) (by simp) (by simp) (by simp) (by simp) (by simp) (by simp)

end Installer

namespace Installer

/-- A non-200 final response produces only the failure message and exit. -/
theorem handleDownload_not200_eq (outputPath : String) (isWin : Bool)
    (denv : DownloadEnv) (r : Response) (h : r.statusCode ≠ 200) :
    handleDownload outputPath isWin denv r
      = [Action.consoleError
           ("Failed to download binary. Status code: " ++ toString r.statusCode),
         Action.exit 1] := by
  unfold handleDownload
  simp [h]

/-- C2 (amended): the engine follows exactly one redirect hop and only for
statuses 301 and 302 — it issues exactly one follow-up GET, aimed at the
value of the `Location` header (even when that header is absent), and treats the
second event as final; a second redirect is reported as a bad status with
exit 1, and the other standard 3xx codes are not followed at all but fail
as bad statuses after a single GET. -/
theorem one_redirect_hop :
    (∀ (url outputPath : String) (isWin : Bool) (env : Env) (r1 : Response),
       env.firstEvent = NetEvent.response r1 →
       r1.statusCode = 301 ∨ r1.statusCode = 302 →
       ∃ rest, topRequest url outputPath isWin env
           = Action.httpGet (some url) :: Action.httpGet r1.location :: rest
         ∧ countGets rest = 0
         ∧ ∀ r2, env.secondEvent = NetEvent.response r2 →
             r2.statusCode = 301 ∨ r2.statusCode = 302 →
             rest = [Action.consoleError
                       ("Failed to download binary. Status code: "
                         ++ toString r2.statusCode),
                     Action.exit 1])
    ∧ (∀ (url outputPath : String) (isWin : Bool) (env : Env) (r1 : Response),
       env.firstEvent = NetEvent.response r1 →
       isStdRedirect r1.statusCode = true →
       r1.statusCode ≠ 301 → r1.statusCode ≠ 302 →
       topRequest url outputPath isWin env
         = [Action.httpGet (some url),
            Action.consoleError
              ("Failed to download binary. Status code: " ++ toString r1.statusCode),
            Action.exit 1]) := by
  constructor
  · intro url outputPath isWin env r1 hfe hred
    unfold topRequest
    rw [hfe]
    dsimp only
    rw [if_pos (by tauto)]
    cases hse : env.secondEvent with
    | netError m =>
        refine ⟨onErrorTrace outputPath false env.staleTempExists m, rfl,
          countGets_onErrorTrace _ _ _ _, ?_⟩
        intro r2 hr2
        cases hr2
    | response r2 =>
        refine ⟨handleDownload outputPath isWin env.download r2, rfl,
          countGets_handleDownload _ _ _ _, ?_⟩
        intro r2h hr2 hred2
        cases hr2
        apply handleDownload_not200_eq
        omega
  · intro url outputPath isWin env r1 hfe hstd h301 h302
    have hmem : r1.statusCode = 301 ∨ r1.statusCode = 302 ∨ r1.statusCode = 303
        ∨ r1.statusCode = 307 ∨ r1.statusCode = 308 := by
      unfold isStdRedirect redirectStatuses at hstd
      simpa using hstd
    unfold topRequest
    rw [hfe]
    dsimp only
    rw [if_neg (by tauto)]
    rw [handleDownload_not200_eq _ _ _ _ (by omega)]

/-- C2 counterexample: a first response with standard redirect status 307
and a `Location` header is not followed — only one GET is ever issued. -/
theorem one_redirect_hop_counterexample : ¬ redirectClaimC2 := by
  intro h
  have h2 := h "https://example.com/a" "bin/x" false
    ⟨true, false,
     NetEvent.response ⟨307, some "https://example.com/b", none, []⟩,
     NetEvent.netError "unused", ⟨StreamOutcome.complete, false, false⟩⟩
    ⟨307, some "https://example.com/b", none, []⟩ rfl (by decide) rfl
  exact absurd h2 (by decide)

end Installer

namespace Installer

/-- Witness for C2: a 302 pointing at a 404 gives exactly two GETs. -/
theorem one_redirect_hop_witness :
    ∃ rest, topRequest "https://example.com/a" "bin/x" false
        ⟨true, false,
         NetEvent.response ⟨302, some "https://example.com/b", none, []⟩,
         NetEvent.response ⟨404, none, none, []⟩,
         ⟨StreamOutcome.complete, false, false⟩⟩
      = Action.httpGet (some "https://example.com/a")
        :: Action.httpGet (some "https://example.com/b") :: rest
      ∧ countGets rest = 0
      ∧ ∀ r2, (⟨true, false,
           NetEvent.response ⟨302, some "https://example.com/b", none, []⟩,
           NetEvent.response ⟨404, none, none, []⟩,
           ⟨StreamOutcome.complete, false, false⟩⟩ : Env).secondEvent
             = NetEvent.response r2 →
          r2.statusCode = 301 ∨ r2.statusCode = 302 →
          rest = [Action.consoleError
                    ("Failed to download binary. Status code: " ++ toString r2.statusCode),
                  Action.exit 1] :=
  one_redirect_hop.1 "https://example.com/a" "bin/x" false
    ⟨true, false,
     NetEvent.response ⟨302, some "https://example.com/b", none, []⟩,
     NetEvent.response ⟨404, none, none, []⟩,
     ⟨StreamOutcome.complete, false, false⟩⟩
    ⟨302, some "https://example.com/b", none, []⟩ rfl (Or.inr rfl)

end Installer

namespace Installer

/-- The temp path differs from the final path. -/
theorem tempPath_ne (s : String) : tempPath s ≠ s := by
  intro h
  have hl := congrArg String.length h
  rw [tempPath, String.length_append] at hl
  have h4 : (".tmp" : String).length = 4 := rfl
  rw [h4] at hl
  omega

theorem tempPath_beq_false (s : String) : (tempPath s == s) = false :=
  beq_eq_false_iff_ne.mpr (tempPath_ne s)

/-- Trace shape of a 200 download whose stream errors after `k` chunks. -/
theorem handleDownload_errorAt_eq (outputPath : String) (isWin : Bool)
    (denv : DownloadEnv) (r : Response) (k : Nat) (msg : String)
    (h200 : r.statusCode = 200) (hst : denv.stream = StreamOutcome.errorAt k msg) :
    handleDownload outputPath isWin denv r
      = (Action.createWriteStream (tempPath outputPath) ::
          (if r.contentLength.isNone then
             [Action.consoleLog "Downloading (size unknown)..."]
           else []))
        ++ (streamChunks (tempPath outputPath) r.contentLength (r.body.take k) 0
            ++ onErrorTrace outputPath true true msg) := by
  unfold handleDownload
  rw [if_neg (by simp [h200]), hst]

/-- Trace shape of a 200 download whose stream completes. -/
theorem handleDownload_complete_eq (outputPath : String) (isWin : Bool)
    (denv : DownloadEnv) (r : Response)
    (h200 : r.statusCode = 200) (hst : denv.stream = StreamOutcome.complete) :
    handleDownload outputPath isWin denv r
      = (Action.createWriteStream (tempPath outputPath) ::
          (if r.contentLength.isNone then
             [Action.consoleLog "Downloading (size unknown)..."]
           else []))
        ++ (streamChunks (tempPath outputPath) r.contentLength r.body 0
            ++ (if r.contentLength.isNone then [] else [Action.stdoutWrite "\n"])
            ++ [Action.closeFile (tempPath outputPath),
                Action.consoleLog "Download completed."]
            ++ finalizeActions outputPath isWin denv.renameThrows denv.chmodThrows) := by
  unfold handleDownload
  rw [if_neg (by simp [h200]), hst]

/-- C4: a transport error at any point of the stream ends the attempt with
the handle closed and destroyed, the temp file unlinked, an error message
and `exit 1`; and no action of the whole attempt touches the final path. -/
theorem stream_error_cleanup (outputPath : String) (isWin : Bool)
    (denv : DownloadEnv) (r : Response) (k : Nat) (msg : String)
    (h200 : r.statusCode = 200) (hst : denv.stream = StreamOutcome.errorAt k msg) :
    (∃ pre, handleDownload outputPath isWin denv r
        = pre ++ [Action.closeFile (tempPath outputPath),
                  Action.destroyFile (tempPath outputPath),
                  Action.unlink (tempPath outputPath),
                  Action.consoleError ("Error downloading binary: " ++ msg),
                  Action.exit 1])
    ∧ ∀ act ∈ handleDownload outputPath isWin denv r,
        touchesPath outputPath act = false := by
  constructor
  · refine ⟨(Action.createWriteStream (tempPath outputPath) ::
        (if r.contentLength.isNone then
           [Action.consoleLog "Downloading (size unknown)..."]
         else []))
      ++ streamChunks (tempPath outputPath) r.contentLength (r.body.take k) 0, ?_⟩
    rw [handleDownload_errorAt_eq outputPath isWin denv r k msg h200 hst]
    rw [List.append_assoc]
    rfl
  · intro act hact
    rw [handleDownload_errorAt_eq outputPath isWin denv r k msg h200 hst] at hact
    rcases List.mem_append.mp hact with h | h
    · rcases List.mem_cons.mp h with rfl | h
      · exact tempPath_beq_false outputPath
      · split at h
        · rcases List.mem_cons.mp h with rfl | h
          · rfl
          · cases h
        · cases h
    · rcases List.mem_append.mp h with h | h
      · rcases mem_streamChunks _ _ _ _ _ h with ⟨s, rfl⟩ | ⟨c, rfl⟩
        · rfl
        · exact tempPath_beq_false outputPath
      · exact forall_mem_onErrorTrace (fun a => touchesPath outputPath a = false)
          outputPath true true msg (by rfl) (by rfl)
          (tempPath_beq_false outputPath) (fun m => rfl) rfl act h

/-- Witness for C4: a 10-byte transfer interrupted after one chunk. -/
theorem stream_error_cleanup_witness :
    (∃ pre, handleDownload "bin/lancedb-mcp-server" false
        ⟨StreamOutcome.errorAt 1 "socket hang up", false, false⟩
        ⟨200, none, some 10, [[0, 1, 2, 3], [4, 5]]⟩
        = pre ++ [Action.closeFile (tempPath "bin/lancedb-mcp-server"),
                  Action.destroyFile (tempPath "bin/lancedb-mcp-server"),
                  Action.unlink (tempPath "bin/lancedb-mcp-server"),
                  Action.consoleError ("Error downloading binary: " ++ "socket hang up"),
                  Action.exit 1])
    ∧ ∀ act ∈ handleDownload "bin/lancedb-mcp-server" false
        ⟨StreamOutcome.errorAt 1 "socket hang up", false, false⟩
        ⟨200, none, some 10, [[0, 1, 2, 3], [4, 5]]⟩,
        touchesPath "bin/lancedb-mcp-server" act = false :=
  stream_error_cleanup "bin/lancedb-mcp-server" false _ _ 1 "socket hang up" rfl rfl

end Installer

namespace Installer

/-- C1: on a successful download and finalize, the trace ends with closing
the fully-written temp file, the single rename of the temp file onto the
final path, then (on non-Windows only) the chmod of the final path; no
action before that suffix creates, writes, renames onto or chmods the
final path. -/
theorem atomic_finalize (outputPath : String) (isWin : Bool) (r : Response)
    (h200 : r.statusCode = 200) :
    ∃ pre, handleDownload outputPath isWin ⟨StreamOutcome.complete, false, false⟩ r
        = pre ++ ([Action.closeFile (tempPath outputPath),
                   Action.consoleLog "Download completed.",
                   Action.rename (tempPath outputPath) outputPath]
                  ++ (if isWin then [] else [Action.chmod outputPath "755"]))
      ∧ ∀ act ∈ pre, touchesPath outputPath act = false := by
  refine ⟨(Action.createWriteStream (tempPath outputPath) ::
      (if r.contentLength.isNone then
         [Action.consoleLog "Downloading (size unknown)..."]
       else []))
    ++ (streamChunks (tempPath outputPath) r.contentLength r.body 0
        ++ (if r.contentLength.isNone then [] else [Action.stdoutWrite "\n"])), ?_, ?_⟩
  · rw [handleDownload_complete_eq outputPath isWin _ r h200 rfl]
    simp [finalizeActions, List.append_assoc]
  · intro act hact
    rcases List.mem_append.mp hact with h | h
    · rcases List.mem_cons.mp h with rfl | h
      · exact tempPath_beq_false outputPath
      · split at h
        · rcases List.mem_cons.mp h with rfl | h
          · rfl
          · cases h
        · cases h
    · rcases List.mem_append.mp h with h | h
      · rcases mem_streamChunks _ _ _ _ _ h with ⟨s, rfl⟩ | ⟨c, rfl⟩
        · rfl
        · exact tempPath_beq_false outputPath
      · split at h
        · cases h
        · rcases List.mem_cons.mp h with rfl | h
          · rfl
          · cases h

end Installer

namespace Installer

/-- Witness for C1: a completed 7-byte download on a non-Windows host. -/
theorem atomic_finalize_witness :
    ∃ pre, handleDownload "bin/lancedb-mcp-server" false
        ⟨StreamOutcome.complete, false, false⟩
        ⟨200, none, some 7, [[0, 1, 2, 3], [4, 5, 6]]⟩
        = pre ++ ([Action.closeFile (tempPath "bin/lancedb-mcp-server"),
                   Action.consoleLog "Download completed.",
                   Action.rename (tempPath "bin/lancedb-mcp-server") "bin/lancedb-mcp-server"]
                  ++ [Action.chmod "bin/lancedb-mcp-server" "755"])
      ∧ ∀ act ∈ pre, touchesPath "bin/lancedb-mcp-server" act = false :=
  atomic_finalize "bin/lancedb-mcp-server" false
    ⟨200, none, some 7, [[0, 1, 2, 3], [4, 5, 6]]⟩ rfl

end Installer

namespace Installer

theorem jsRound_mono {q1 q2 : ℚ} (h : q1 ≤ q2) : jsRound q1 ≤ jsRound q2 := by
  unfold jsRound
  exact Int.floor_le_floor (by linarith)

theorem percentTenths_mono (t d1 d2 : ℕ) (ht : 0 < t) (h : d1 ≤ d2) :
    percentTenths d1 t ≤ percentTenths d2 t := by
  unfold percentTenths
  apply jsRound_mono
  have htq : (0 : ℚ) < (t : ℚ) := by exact_mod_cast ht
  have hd : (d1 : ℚ) ≤ (d2 : ℚ) := by exact_mod_cast h
  have hdiv : (d1 : ℚ) / (t : ℚ) ≤ (d2 : ℚ) / (t : ℚ) :=
    div_le_div_of_nonneg_right hd htq.le
  nlinarith

theorem filled_mono (t d1 d2 : ℕ) (ht : 0 < t) (h : d1 ≤ d2) :
    filled d1 t ≤ filled d2 t := by
  unfold filled
  apply max_le_max le_rfl
  apply min_le_min le_rfl
  apply jsRound_mono
  have htq : (0 : ℚ) < (t : ℚ) := by exact_mod_cast ht
  have hd : (d1 : ℚ) ≤ (d2 : ℚ) := by exact_mod_cast h
  have hdiv : (d1 : ℚ) / (t : ℚ) ≤ (d2 : ℚ) / (t : ℚ) :=
    div_le_div_of_nonneg_right hd htq.le
  nlinarith

theorem filled_bounds (d t : ℕ) :
    0 ≤ filled d t ∧ filled d t ≤ (progressBarWidth : ℤ) := by
  unfold filled
  refine ⟨le_max_left 0 _, max_le ?_ (min_le_left _ _)⟩
  norm_num

theorem countLog_streamChunks_none (m tmp : String) (chunks : List (List Nat))
    (d0 : Nat) : countLog m (streamChunks tmp none chunks d0) = 0 := by
  unfold countLog
  rw [List.countP_eq_zero]
  intro a ha
  rcases mem_streamChunks _ _ _ _ _ ha with ⟨s, rfl⟩ | ⟨c, rfl⟩ <;> simp

theorem countStdout_streamChunks_none (tmp : String) (chunks : List (List Nat))
    (d0 : Nat) : countStdout (streamChunks tmp none chunks d0) = 0 := by
  unfold countStdout
  rw [List.countP_eq_zero]
  intro a ha
  rcases mem_streamChunks tmp none chunks d0 _ ha with ⟨s, hs⟩ | ⟨c, rfl⟩
  · rw [streamChunks_none] at ha
    rw [hs] at ha
    rcases List.mem_map.mp ha with ⟨c, _, hc⟩
    cases hc
  · simp

end Installer

namespace Installer

/-- C9: with a declared total size, the displayed percentage (in tenths)
and the filled portion of the bar are non-decreasing in the bytes
received, and the filled portion always lies within the fixed bar width;
with no declared size, the whole download emits exactly one
"size unknown" notice and never writes to stdout (no percentage). -/
theorem progress_reporting :
    (∀ t d1 d2 : ℕ, 0 < t → d1 ≤ d2 →
        percentTenths d1 t ≤ percentTenths d2 t ∧ filled d1 t ≤ filled d2 t)
    ∧ (∀ d t : ℕ, 0 ≤ filled d t ∧ filled d t ≤ (progressBarWidth : ℤ))
    ∧ (∀ (outputPath : String) (isWin : Bool) (denv : DownloadEnv) (r : Response),
        r.statusCode = 200 → r.contentLength = none →
        countLog "Downloading (size unknown)..." (handleDownload outputPath isWin denv r) = 1
        ∧ countStdout (handleDownload outputPath isWin denv r) = 0) := by
  refine ⟨fun t d1 d2 ht h => ⟨percentTenths_mono t d1 d2 ht h, filled_mono t d1 d2 ht h⟩,
    filled_bounds, ?_⟩
  intro outputPath isWin denv r h200 hnone
  cases hst : denv.stream with
  | errorAt k msg =>
      rw [handleDownload_errorAt_eq outputPath isWin denv r k msg h200 hst]
      rw [hnone]
      constructor
      · simp only [countLog, Option.isNone_none, if_pos, List.cons_append,
          List.countP_cons, List.countP_append, List.nil_append]
        have h1 := countLog_streamChunks_none "Downloading (size unknown)..."
          (tempPath outputPath) (r.body.take k) 0
        unfold countLog at h1
        rw [h1]
        have h2 : countLog "Downloading (size unknown)..."
            (onErrorTrace outputPath true true msg) = 0 := by
          unfold countLog
          rw [List.countP_eq_zero]
          exact forall_mem_onErrorTrace _ outputPath true true msg
            (by simp) (by simp) (by simp) (fun m => by simp) (by simp)
        unfold countLog at h2
        rw [h2]
        simp
      · simp only [countStdout, Option.isNone_none, if_pos, List.cons_append,
          List.countP_cons, List.countP_append, List.nil_append]
        have h1 := countStdout_streamChunks_none (tempPath outputPath) (r.body.take k) 0
        unfold countStdout at h1
        rw [h1]
        have h2 : countStdout (onErrorTrace outputPath true true msg) = 0 := by
          unfold countStdout
          rw [List.countP_eq_zero]
          exact forall_mem_onErrorTrace _ outputPath true true msg
            (by simp) (by simp) (by simp) (fun m => by simp) (by simp)
        unfold countStdout at h2
        rw [h2]
        simp
  | complete =>
      rw [handleDownload_complete_eq outputPath isWin denv r h200 hst]
      rw [hnone]
      constructor
      · simp only [countLog, Option.isNone_none, if_pos, List.cons_append,
          List.countP_cons, List.countP_append, List.nil_append]
        have h1 := countLog_streamChunks_none "Downloading (size unknown)..."
          (tempPath outputPath) r.body 0
        unfold countLog at h1
        rw [h1]
        have h2 : countLog "Downloading (size unknown)..."
            (finalizeActions outputPath isWin denv.renameThrows denv.chmodThrows) = 0 := by
          unfold countLog
          rw [List.countP_eq_zero]
          exact forall_mem_finalizeActions _ outputPath isWin _ _
            (by simp) (by simp) (fun m => by simp) (by simp)
        unfold countLog at h2
        rw [h2]
        simp
      · simp only [countStdout, Option.isNone_none, if_pos, List.cons_append,
          List.countP_cons, List.countP_append, List.nil_append]
        have h1 := countStdout_streamChunks_none (tempPath outputPath) r.body 0
        unfold countStdout at h1
        rw [h1]
        have h2 : countStdout
            (finalizeActions outputPath isWin denv.renameThrows denv.chmodThrows) = 0 := by
          unfold countStdout
          rw [List.countP_eq_zero]
          exact forall_mem_finalizeActions _ outputPath isWin _ _
            (by simp) (by simp) (fun m => by simp) (by simp)
        unfold countStdout at h2
        rw [h2]
        simp

end Installer

namespace Installer

/-- Witness for C9: monotone progress at 3 ≤ 7 of 10 bytes, and a
size-unknown download emitting exactly one notice and no stdout output. -/
theorem progress_reporting_witness :
    (percentTenths 3 10 ≤ percentTenths 7 10 ∧ filled 3 10 ≤ filled 7 10)
    ∧ (countLog "Downloading (size unknown)..."
         (handleDownload "bin/lancedb-mcp-server" false
           ⟨StreamOutcome.complete, false, false⟩
           ⟨200, none, none, [[0, 1], [2]]⟩) = 1
       ∧ countStdout
         (handleDownload "bin/lancedb-mcp-server" false
           ⟨StreamOutcome.complete, false, false⟩
           ⟨200, none, none, [[0, 1], [2]]⟩) = 0) :=
  ⟨progress_reporting.1 10 3 7 (by norm_num) (by norm_num),
   progress_reporting.2.2 "bin/lancedb-mcp-server" false
     ⟨StreamOutcome.complete, false, false⟩ ⟨200, none, none, [[0, 1], [2]]⟩ rfl rfl⟩

end Installer
